import Mathlib

/-!
Shallow embedding of the OpenDendro bootcamp2024 repository.

The repository consists of two Jupyter notebooks
(`Introduction_to_Python.ipynb`, `bristlecone_example.ipynb`) and a prose
installation guide (`dplpy_installation.md`).  The notebooks contain no
function or class definitions of their own: every code cell is a short
sequence of assignments, arithmetic, indexing, and calls into external
libraries (dplpy, pandas, numpy, matplotlib, and the Python builtin
`print`).  This file embeds

* the inventory of library invocations appearing in the notebooks'
  code cells, transcribed cell by cell;
* the semantics of the small Python/pandas/numpy fragment exercised by
  `Introduction_to_Python.ipynb` (arithmetic, list indexing, `np.arange`,
  `ndarray.reshape`, `shape`, `pd.read_csv`, column selection, boolean
  selection, `iloc` assignment, `dropna`), together with the concrete
  DataFrame recorded in the notebook's output snapshots;

and proves the frozen claims about the repository from these definitions.
-/

/-! ### Libraries and invocations transcribed from the notebooks -/

/-- The external libraries (the IPython notebook runtime and the Python
builtin namespace included) whose functions, methods, attributes or
magics are invoked by code cells of the two notebooks. -/
inductive Lib where
  | dplpy
  | pandas
  | numpy
  | matplotlib
  | ipython
  | builtin
deriving DecidableEq, Repr

/-- Names of the functions, methods, attributes, indexers and magics
invoked by the notebooks' code cells: besides the library functions,
`getitem` is `DataFrame.__getitem__` (column access, row slicing and
boolean-mask selection), `loc` and `iloc` are the pandas indexers read,
`iloc_set` is the `iloc` indexer written by assignment, `columns` and
`index` are the DataFrame attributes, `shape_attr` is the attribute form
`ndarray.shape` (as opposed to the function form `np.shape`),
`dunder_version` and `dunder_file` are the module attributes
`dpl.__version__` and `dpl.__file__`, and `config_magic` and
`matplotlib_magic` are the IPython line magics. -/
inductive FnName where
  | readers
  | summary
  | stats
  | report
  | plot
  | detrend
  | chron
  | xdate
  | series_corr
  | read_csv
  | merge
  | describe
  | dropna
  | columns
  | index
  | loc
  | iloc
  | iloc_set
  | getitem
  | array
  | arange
  | reshape
  | shape
  | shape_attr
  | nan
  | rcParams
  | dunder_version
  | dunder_file
  | config_magic
  | matplotlib_magic
  | print
deriving DecidableEq, Repr

/-- One invocation of a library function (or attribute) by a notebook
code cell. -/
structure Invocation where
  lib : Lib
  fn : FnName
deriving DecidableEq, Repr

/-- The library invocations of the code cells of
`Introduction_to_Python.ipynb`, in cell order: `print(c)`;
`np.array([[...]])`; `np.arange(0,15,1).reshape((3, 5))`; the attribute
`a.shape`; the function form `np.shape(a)`; `pd.read_csv('myData.csv')`;
the attributes `text_data.columns` and `text_data.index`;
`text_data.describe()`; `text_data["accuracy"]` twice; the row slice
`text_data[0:2]`; `text_data.loc[0:2,:]` and
`text_data.loc[:,["position","accuracy"]]`; `text_data.iloc[:,1]`; the
boolean selection `text_data[text_data["accuracy"]<=3]` (an inner column
access and an outer mask selection); the cell
`text_data.iloc[2,1] = np.nan` (the `np.nan` read, then the `iloc`
assignment); `text_data.dropna(how="any")`. -/
def introInvocations : List Invocation :=
  [⟨.builtin, .print⟩,
   ⟨.numpy, .array⟩,
   ⟨.numpy, .arange⟩, ⟨.numpy, .reshape⟩,
   ⟨.numpy, .shape_attr⟩,
   ⟨.numpy, .shape⟩,
   ⟨.pandas, .read_csv⟩,
   ⟨.pandas, .columns⟩,
   ⟨.pandas, .index⟩,
   ⟨.pandas, .describe⟩,
   ⟨.pandas, .getitem⟩,
   ⟨.pandas, .getitem⟩,
   ⟨.pandas, .getitem⟩,
   ⟨.pandas, .loc⟩, ⟨.pandas, .loc⟩,
   ⟨.pandas, .iloc⟩,
   ⟨.pandas, .getitem⟩, ⟨.pandas, .getitem⟩,
   ⟨.numpy, .nan⟩, ⟨.pandas, .iloc_set⟩,
   ⟨.pandas, .dropna⟩]

/-- The library invocations of the code cells of
`bristlecone_example.ipynb`, in cell order: the `%config` and
`%matplotlib` IPython magics and two `plt.rcParams` assignments; the
attribute reads `dpl.__version__` and `dpl.__file__`, each passed to
`print`; `dpl.readers` on `ca533.rwl` and on `ca667.rwl`; `ca533.index`
and `ca667.index`, each passed to `print`; `pd.merge`; `dpl.summary`;
`dpl.stats`; `dpl.report`; two `dpl.plot` calls; the `dpl.detrend` call
on `ca533` and the two on the column `ca533["CAM161"]` (each preceded by
the column access); two `dpl.chron` calls; `dpl.xdate`;
`dpl.series_corr`. -/
def bristleconeInvocations : List Invocation :=
  [⟨.ipython, .config_magic⟩, ⟨.ipython, .matplotlib_magic⟩,
   ⟨.matplotlib, .rcParams⟩, ⟨.matplotlib, .rcParams⟩,
   ⟨.dplpy, .dunder_version⟩, ⟨.builtin, .print⟩,
   ⟨.dplpy, .dunder_file⟩, ⟨.builtin, .print⟩,
   ⟨.dplpy, .readers⟩,
   ⟨.dplpy, .readers⟩,
   ⟨.pandas, .index⟩, ⟨.builtin, .print⟩,
   ⟨.pandas, .index⟩, ⟨.builtin, .print⟩,
   ⟨.pandas, .merge⟩,
   ⟨.dplpy, .summary⟩,
   ⟨.dplpy, .stats⟩,
   ⟨.dplpy, .report⟩,
   ⟨.dplpy, .plot⟩, ⟨.dplpy, .plot⟩,
   ⟨.dplpy, .detrend⟩,
   ⟨.pandas, .getitem⟩, ⟨.dplpy, .detrend⟩,
   ⟨.pandas, .getitem⟩, ⟨.dplpy, .detrend⟩,
   ⟨.dplpy, .chron⟩, ⟨.dplpy, .chron⟩,
   ⟨.dplpy, .xdate⟩,
   ⟨.dplpy, .series_corr⟩]

/-- All library invocations appearing in the repository's notebooks. -/
def allInvocations : List Invocation :=
  introInvocations ++ bristleconeInvocations

/-- The function and class definitions contained in the notebooks'
code cells, transcribed from the source: the notebooks define none. -/
def notebookDefinedFunctions : List FnName := []

/-- A library is external to the repository exactly when it is not the
Python builtin namespace. -/
def externalLib (l : Lib) : Bool := l != Lib.builtin

/-- The categories of substantive operations named by the specification:
file parsing, detrending, statistical summaries, plotting, crossdating. -/
inductive OpCategory where
  | fileParsing
  | detrending
  | statSummary
  | plotting
  | crossdating
deriving DecidableEq, Repr

/-- The substantive category, if any, of an invocation: `dpl.readers` and
`pd.read_csv` parse files; `dpl.detrend` detrends; `dpl.summary`,
`dpl.stats`, `dpl.report` and `DataFrame.describe` compute statistical
summaries; `dpl.plot` plots; `dpl.xdate` and `dpl.series_corr` crossdate. -/
def substantiveCategory (i : Invocation) : Option OpCategory :=
  match i.fn with
  | .readers => some .fileParsing
  | .read_csv => some .fileParsing
  | .detrend => some .detrending
  | .summary => some .statSummary
  | .stats => some .statSummary
  | .report => some .statSummary
  | .describe => some .statSummary
  | .plot => some .plotting
  | .xdate => some .crossdating
  | .series_corr => some .crossdating
  | _ => none

/-- The dendrochronology library interface enumerated by the
specification: reader, summary, statistics, report, plot, detrend,
chronology builder, crossdating. -/
def dplInterface : List FnName :=
  [.readers, .summary, .stats, .report, .plot, .detrend, .chron,
   .xdate, .series_corr]

/-- Stated from the specification's words (section 6), for comparison
with the transcribed invocation inventory: every external-library
invocation in the notebooks targets the dendrochronology library's
enumerated interface, and nothing else. -/
def specOnlyDplInterfaces : Bool :=
  allInvocations.all fun i =>
    !externalLib i.lib || (i.lib == Lib.dplpy && dplInterface.contains i.fn)

/-- The interfaces actually exercised by the notebooks: the
dendrochronology library's enumerated functions and its `__version__`
and `__file__` attributes; the pandas functions and methods `read_csv`,
`describe`, `dropna`, `merge`, the indexers `loc` and `iloc` (read and
written), `__getitem__`, and the attributes `columns` and `index`; the
numpy functions `array`, `arange`, `reshape`, `shape`, the `shape`
attribute and the constant `nan`; the matplotlib configuration attribute
`rcParams`; the IPython `%config` and `%matplotlib` magics; and the
builtin `print`. -/
def exercisedInterface (i : Invocation) : Bool :=
  (i.lib == Lib.dplpy &&
    (dplInterface.contains i.fn ||
     [FnName.dunder_version, .dunder_file].contains i.fn)) ||
  (i.lib == Lib.pandas &&
    [FnName.read_csv, .describe, .dropna, .merge,
     .columns, .index, .loc, .iloc, .iloc_set, .getitem].contains i.fn) ||
  (i.lib == Lib.numpy &&
    [FnName.array, .arange, .reshape, .shape, .shape_attr, .nan].contains i.fn) ||
  (i.lib == Lib.matplotlib && i.fn == FnName.rcParams) ||
  (i.lib == Lib.ipython &&
    [FnName.config_magic, .matplotlib_magic].contains i.fn) ||
  (i.lib == Lib.builtin && i.fn == FnName.print)

/-! ### Python values and sequences (`Introduction_to_Python.ipynb`) -/

/-- Cell `3 + 4` of the introduction notebook. -/
def cell_3_plus_4 : Int := 3 + 4

/-- Cell `a = 3`. -/
def a : Int := 3

/-- Cell `b = 4`. -/
def b : Int := 4

/-- Cell `a+b`. -/
def cell_a_plus_b : Int := a + b

/-- Cell `c = b * a`. -/
def c : Int := b * a

/-- The line printed by `print(c)`. -/
def print_c_output : String := toString c

/-- Cell `my_list = [1, 2, 3, 4, 5, 6]`. -/
def my_list : List Int := [1, 2, 3, 4, 5, 6]

/-- Cell `fruits = ['orange', 'apple', 'pear', 'banana', 'kiwi', 'apple',
'banana']`. -/
def fruits : List String :=
  ["orange", "apple", "pear", "banana", "kiwi", "apple", "banana"]

/-- Python sequence indexing `l[i]`: a nonnegative index counts from the
front, a negative index `i` means position `len(l) + i`; out of range is
an IndexError, returned as `none`. -/
def pyIndex {α : Type} (l : List α) (i : Int) : Option α :=
  if 0 ≤ i then l.get? i.toNat
  else
    let j : Int := (l.length : Int) + i
    if 0 ≤ j then l.get? j.toNat else none

/-- Cell `my_list[0], my_list[3]`. -/
def cell_pair : Option Int × Option Int := (pyIndex my_list 0, pyIndex my_list 3)

/-- Cell `my_list[-1]`. -/
def cell_neg1 : Option Int := pyIndex my_list (-1)

/-! ### numpy fragment -/

/-- A numpy 2-dimensional integer array: its entries as nested lists in
row-major order together with its shape attribute. -/
structure NDArray where
  data : List (List Int)
  shape : Nat × Nat
deriving DecidableEq, Repr

/-- The fragment of `np.arange` used by the notebook (integer arguments,
positive step): the evenly spaced values `start, start+step, ...` strictly
below `stop`. -/
def np_arange (start stop step : Int) : List Int :=
  if 0 < step then
    (List.range (((stop - start) + step - 1) / step).toNat).map
      fun k => start + step * (k : Int)
  else []

/-- The method `ndarray.reshape((r, c))`: the flat data arranged row-major
into `r` rows of `c` entries, recording `(r, c)` as the shape attribute;
numpy raises an error when the total size differs, returned as `none`. -/
def np_reshape (l : List Int) (r cc : Nat) : Option NDArray :=
  if l.length = r * cc then
    some ⟨(List.range r).map fun i => (l.drop (i * cc)).take cc, (r, cc)⟩
  else none

/-- The function form `np.shape`, computed from the nested row-major data
rather than read off the stored shape attribute. -/
def np_shape (m : List (List Int)) : Nat × Nat :=
  (m.length, (m.headD []).length)

/-- Cell `my_array = np.array([[1, 2, 3, 4], [5, 6, 7, 8], [9, 10, 11, 12]])`. -/
def my_array : List (List Int) := [[1, 2, 3, 4], [5, 6, 7, 8], [9, 10, 11, 12]]

/-- Cell `a = np.arange(0,15,1).reshape((3, 5))` (the notebook rebinds the
name `a`, previously the integer 3, to this array). -/
def a_reshaped : Option NDArray := np_reshape (np_arange 0 15 1) 3 5

/-! ### pandas fragment -/

/-- One row of the `text_data` DataFrame: its index label and its entries
in the columns `position`, `score`, `accuracy`.  A missing entry (`NaN`)
is `none`. -/
structure Row where
  label : Nat
  position : Option Int
  score : Option Int
  accuracy : Option Int
deriving DecidableEq, Repr

/-- A DataFrame over the columns `position`, `score`, `accuracy`: its
rows in order. -/
structure DataFrame where
  rows : List Row
deriving DecidableEq, Repr

/-- The column names of `text_data`, as recorded by the
`text_data.columns` cell: `Index(['position', 'score', 'accuracy'])`. -/
def text_data_columns : List String := ["position", "score", "accuracy"]

/-- The entry of a row at column position `j` (0 = position, 1 = score,
2 = accuracy). -/
def entryAt (r : Row) (j : Nat) : Option Int :=
  match j with
  | 0 => r.position
  | 1 => r.score
  | _ => r.accuracy

/-- Write a value into a row at column position `j`. -/
def setEntry (r : Row) (j : Nat) (v : Option Int) : Row :=
  match j with
  | 0 => { r with position := v }
  | 1 => { r with score := v }
  | _ => { r with accuracy := v }

/-- Parse one CSV body line into a row with the given index label:
comma-separated integer fields for position, score, accuracy. -/
def parseRow (lab : Nat) (line : String) : Row :=
  match (line.splitOn ",").map String.toInt? with
  | [p, s, q] => ⟨lab, p, s, q⟩
  | _ => ⟨lab, none, none, none⟩

/-- The fragment of `pd.read_csv` used by the notebook: the first line is
the header, each following nonempty line is one row, labelled by a
`RangeIndex` starting at 0. -/
def read_csv (contents : String) : DataFrame :=
  match contents.splitOn "\n" with
  | [] => ⟨[]⟩
  | _ :: body =>
    ⟨((body.filter fun l => !l.isEmpty).enum).map fun p => parseRow p.1 p.2⟩

/-- Modelled from the spec: the repository does not include the file
`myData.csv` itself; its contents are reconstructed from the recorded
output snapshots of `Introduction_to_Python.ipynb` (columns `position`,
`score`, `accuracy`; five rows). -/
def myData_csv : String :=
  "position,score,accuracy\n1,43,3\n2,21,6\n3,39,4\n4,11,2\n5,47,3\n"

/-- The DataFrame `text_data = pd.read_csv('myData.csv')`, transcribed
from the recorded output snapshot of the cell that displays it. -/
def text_data : DataFrame :=
  ⟨[⟨0, some 1, some 43, some 3⟩,
    ⟨1, some 2, some 21, some 6⟩,
    ⟨2, some 3, some 39, some 4⟩,
    ⟨3, some 4, some 11, some 2⟩,
    ⟨4, some 5, some 47, some 3⟩]⟩

/-- Whether a row's accuracy entry is present and at most `k`: one entry
of the boolean mask `text_data["accuracy"] <= k`. -/
def accAtMost (k : Int) (r : Row) : Bool :=
  match r.accuracy with
  | some v => decide (v ≤ k)
  | none => false

/-- The boolean mask `text_data["accuracy"] <= k`, one boolean per row in
row order. -/
def accuracyLeMask (df : DataFrame) (k : Int) : List Bool :=
  df.rows.map (accAtMost k)

/-- Boolean selection `df[mask]`: the rows whose mask entry is true, kept
in their original order with their original labels and entries. -/
def selectRows (df : DataFrame) (mask : List Bool) : DataFrame :=
  ⟨(df.rows.zip mask).filterMap fun p => if p.2 then some p.1 else none⟩

/-- The assignment `df.iloc[i, j] = v`: writes `v` at row position `i`,
column position `j`, leaving every other entry unchanged; out-of-range
positions raise an IndexError, returned as `none`. -/
def set_iloc (df : DataFrame) (i j : Nat) (v : Option Int) : Option DataFrame :=
  if i < df.rows.length ∧ j < 3 then
    some ⟨df.rows.enum.map fun p => if p.1 = i then setEntry p.2 j v else p.2⟩
  else none

/-- The DataFrame bound to `text_data` after the cell
`text_data.iloc[2,1] = np.nan`. -/
def text_data_nan : DataFrame :=
  (set_iloc text_data 2 1 none).getD text_data

/-- Whether a row has no missing entry. -/
def rowComplete (r : Row) : Bool :=
  r.position.isSome && r.score.isSome && r.accuracy.isSome

/-- The method `df.dropna(how="any")`: the rows having no missing entry,
in their original order; the argument DataFrame is untouched. -/
def dropna_any (df : DataFrame) : DataFrame :=
  ⟨df.rows.filter rowComplete⟩

/-- The number of entries (over the three columns) at which two
DataFrames of equal length differ, position by position. -/
def entryDiffCount (d1 d2 : DataFrame) : Nat :=
  ((d1.rows.zip d2.rows).map fun p =>
    (if p.1.position = p.2.position then 0 else 1) +
    (if p.1.score = p.2.score then 0 else 1) +
    (if p.1.accuracy = p.2.accuracy then 0 else 1)).sum

/-! ### The `describe()` summary, in exact arithmetic -/

/-- Insert an integer into a sorted list, keeping it sorted. -/
def insertSorted (x : Int) : List Int → List Int
  | [] => [x]
  | y :: ys => if x ≤ y then x :: y :: ys else y :: insertSorted x ys

/-- Sort a list of integers into nondecreasing order. -/
def sortInts (l : List Int) : List Int := l.foldr insertSorted []

/-- The linear-interpolation quantile used by `describe()`: on a sorted
list of `n` values, the quantile at `q` interpolates between the values
at positions `floor((n-1)q)` and the next one. -/
def quantileLinear (s : List Int) (q : ℚ) : ℚ :=
  match s with
  | [] => 0
  | _ =>
    let n := s.length
    let pos : ℚ := q * ((n : ℚ) - 1)
    let i : Int := Rat.floor pos
    let frac : ℚ := pos - (i : ℚ)
    let lo : ℚ := (((s.get? i.toNat).getD 0 : Int) : ℚ)
    let hi : ℚ := (((s.get? (min (i.toNat + 1) (n - 1))).getD 0 : Int) : ℚ)
    lo + frac * (hi - lo)

/-- The `describe()` summary of one column, in exact rational arithmetic;
the standard deviation (which involves a square root) is recorded by its
square, the sample variance with one delta degree of freedom. -/
structure DescribeStats where
  count : ℚ
  mean : ℚ
  varDdof1 : ℚ
  minV : ℚ
  q25 : ℚ
  q50 : ℚ
  q75 : ℚ
  maxV : ℚ
deriving DecidableEq, Repr

/-- The `describe()` summary of a list of present integer values. -/
def describeCol (xs : List Int) : DescribeStats :=
  let n : Nat := xs.length
  let s : List Int := sortInts xs
  let mean : ℚ := ((xs.map fun x => (x : ℚ)).sum) / (n : ℚ)
  { count := (n : ℚ)
    mean := mean
    varDdof1 := ((xs.map fun x => ((x : ℚ) - mean) ^ 2).sum) / ((n : ℚ) - 1)
    minV := ((s.headD 0 : Int) : ℚ)
    q25 := quantileLinear s (1 / 4)
    q50 := quantileLinear s (1 / 2)
    q75 := quantileLinear s (3 / 4)
    maxV := ((s.getLastD 0 : Int) : ℚ) }

/-- The present (non-missing) values of a DataFrame column. -/
def colValues (df : DataFrame) (j : Nat) : List Int :=
  df.rows.filterMap fun r => entryAt r j

/-- The method `df.describe()`: the column-wise summaries of the three
columns, missing entries skipped. -/
def describe (df : DataFrame) : DescribeStats × DescribeStats × DescribeStats :=
  (describeCol (colValues df 0), describeCol (colValues df 1),
   describeCol (colValues df 2))

/-! ### The introduction notebook as one evaluation sequence -/

/-- The value displayed (or printed) by one code cell of the
introduction notebook. -/
inductive PyValue where
  | unit : PyValue
  | int : Int → PyValue
  | optInt : Option Int → PyValue
  | intPair : Option Int → Option Int → PyValue
  | strPair : Option String → Option String → PyValue
  | intList : List Int → PyValue
  | matrix : List (List Int) → PyValue
  | optMatrix : Option (List (List Int)) → PyValue
  | optShape : Option (Nat × Nat) → PyValue
  | text : String → PyValue
  | df : DataFrame → PyValue
  | cols : List String → PyValue
  | labels : List Nat → PyValue
  | stats3 : DescribeStats × DescribeStats × DescribeStats → PyValue
  | series : List (Nat × Option Int) → PyValue
  | posAcc : List (Nat × Option Int × Option Int) → PyValue
deriving DecidableEq, Repr

/-- A DataFrame column as a labelled series, pandas `df.iloc[:, j]`. -/
def seriesOfColumn (df : DataFrame) (j : Nat) : List (Nat × Option Int) :=
  df.rows.map fun r => (r.label, entryAt r j)

/-- Label-based row slicing `df.loc[lo:hi, :]`: pandas `loc` slices are
inclusive of both endpoints of the label range. -/
def locLabelRange (df : DataFrame) (lo hi : Nat) : DataFrame :=
  ⟨df.rows.filter fun r => decide (lo ≤ r.label) && decide (r.label ≤ hi)⟩

/-- The whole computation of `Introduction_to_Python.ipynb`, run on given
contents of `myData.csv`: each of the 26 code cells, in order, transcribed
statement by statement; the list holds the value each cell displays
(`PyValue.unit` for the two import cells, which display nothing).  The
name `text_data` is rebound only by the `iloc` assignment cell; the
`dropna` cell is a bare expression and rebinds nothing. -/
def runIntroNotebook (csv : String) : List PyValue :=
  let av : Int := 3
  let bv : Int := 4
  let cv : Int := bv * av
  let ml : List Int := [1, 2, 3, 4, 5, 6]
  let fr : List String := ["orange", "apple", "pear", "banana", "kiwi", "apple", "banana"]
  let myArr : List (List Int) := [[1, 2, 3, 4], [5, 6, 7, 8], [9, 10, 11, 12]]
  let aArr : Option NDArray := np_reshape (np_arange 0 15 1) 3 5
  let td : DataFrame := read_csv csv
  let acc : List (Nat × Option Int) := seriesOfColumn td 2
  let tdNan : DataFrame := (set_iloc td 2 1 none).getD td
  [PyValue.int (3 + 4),
   PyValue.int (av + bv),
   PyValue.text (toString cv),
   PyValue.intList ml,
   PyValue.intPair (pyIndex ml 0) (pyIndex ml 3),
   PyValue.optInt (pyIndex ml (-1)),
   PyValue.strPair (pyIndex fr 0) (pyIndex fr 3),
   PyValue.unit,
   PyValue.matrix myArr,
   PyValue.optMatrix (aArr.map NDArray.data),
   PyValue.optShape (aArr.map NDArray.shape),
   PyValue.optShape (aArr.map fun nd => np_shape nd.data),
   PyValue.unit,
   PyValue.df td,
   PyValue.cols text_data_columns,
   PyValue.labels (td.rows.map Row.label),
   PyValue.stats3 (describe td),
   PyValue.series acc,
   PyValue.series acc,
   PyValue.df ⟨td.rows.take 2⟩,
   PyValue.df (locLabelRange td 0 2),
   PyValue.posAcc (td.rows.map fun r => (r.label, r.position, r.accuracy)),
   PyValue.series (seriesOfColumn td 1),
   PyValue.df (selectRows td (accuracyLeMask td 3)),
   PyValue.df tdNan,
   PyValue.df (dropna_any tdNan)]

/-! ### Claims -/

/-- Claim C1: every substantive operation appearing in the repository's
notebooks — file parsing, detrending, statistical summaries, plotting,
crossdating — is a single invocation of an external, already-implemented
library function, and the notebooks themselves define no function or
class, so no such algorithm and no software behavior originates in this
repository. -/
theorem claim_C1 :
    notebookDefinedFunctions = [] ∧
    allInvocations.all
      (fun i => (substantiveCategory i).isNone || externalLib i.lib) = true := by
  decide

/-- Claim C2, counterexample: it is false that the notebooks' only
external interfaces are the dendrochronology library's enumerated
functions — the introduction notebook invokes `pd.read_csv`, an
external pandas interface outside that enumeration. -/
theorem claim_C2_counterexample :
    specOnlyDplInterfaces = false ∧
    (⟨Lib.pandas, FnName.read_csv⟩ : Invocation) ∈ introInvocations := by
  decide

/-- Claim C2, amended: the external interfaces exercised by the
notebooks are the dendrochronology library's functions (readers, summary,
stats, report, plot, detrend, chron, xdate, series_corr) and its
`__version__` and `__file__` attributes, together with the
general-purpose library interfaces `pd.read_csv`, `pd.merge`,
`DataFrame.describe`, `DataFrame.dropna`, the `loc` and `iloc` indexers
(read and written), `DataFrame.__getitem__`, the `columns` and `index`
attributes, `np.array`, `np.arange`, `ndarray.reshape`, `np.shape` (and
the `ndarray.shape` attribute), `np.nan`, `plt.rcParams`, the IPython
`%config` and `%matplotlib` magics and the builtin `print` — besides the
shell/package-manager commands documented in prose; no other interface
is invoked. -/
theorem claim_C2 : allInvocations.all exercisedInterface = true := by
  decide

/-- Claim C3: the recorded output snapshots of the arithmetic and list
cells are reproduced: `3 + 4` evaluates to 7; after `a = 3` and `b = 4`,
`a+b` evaluates to 7; after `c = b * a`, `print(c)` prints 12;
`(my_list[0], my_list[3])` evaluates to `(1, 4)` and `my_list[-1]` to 6. -/
theorem claim_C3 :
    cell_3_plus_4 = 7 ∧ cell_a_plus_b = 7 ∧ c = 12 ∧ print_c_output = "12" ∧
    cell_pair = (some 1, some 4) ∧ cell_neg1 = some 6 := by
  decide

/-- Claim C4: the boolean selection `text_data[text_data["accuracy"]<=3]`
returns exactly the rows whose accuracy is at most 3 — row positions 0, 3
and 4 — in their original order with all three columns unchanged, as in
the recorded snapshot. -/
theorem claim_C4 :
    selectRows text_data (accuracyLeMask text_data 3) =
      ⟨[⟨0, some 1, some 43, some 3⟩,
        ⟨3, some 4, some 11, some 2⟩,
        ⟨4, some 5, some 47, some 3⟩]⟩ ∧
    (selectRows text_data (accuracyLeMask text_data 3)).rows =
      text_data.rows.filter (accAtMost 3) := by
  decide

/-- Claim C5: after `text_data.iloc[2,1]` has been set to NaN,
`text_data.dropna(how="any")` returns exactly the rows with no missing
entry — original labels 0, 1, 3 and 4 — in their original order, as in
the recorded snapshot. -/
theorem claim_C5 :
    dropna_any text_data_nan =
      ⟨[⟨0, some 1, some 43, some 3⟩,
        ⟨1, some 2, some 21, some 6⟩,
        ⟨3, some 4, some 11, some 2⟩,
        ⟨4, some 5, some 47, some 3⟩]⟩ ∧
    (dropna_any text_data_nan).rows.map Row.label = [0, 1, 3, 4] ∧
    text_data_nan.rows.all
      (fun r => rowComplete r == (dropna_any text_data_nan).rows.contains r) = true := by
  decide

/-- Claim C6: `np.arange(0,15,1)` produces the integers 0 through 14 in
order, and `.reshape((3, 5))` arranges them row-major into the recorded
matrix, with shape attribute `(3, 5)`. -/
theorem claim_C6 :
    np_arange 0 15 1 = [0, 1, 2, 3, 4, 5, 6, 7, 8, 9, 10, 11, 12, 13, 14] ∧
    a_reshaped =
      some ⟨[[0, 1, 2, 3, 4], [5, 6, 7, 8, 9], [10, 11, 12, 13, 14]], (3, 5)⟩ := by
  decide

/-- Claim C7: on the array `a = np.arange(0,15,1).reshape((3, 5))`, the
attribute form `a.shape` and the function form `np.shape(a)` agree, both
being `(3, 5)`. -/
theorem claim_C7 :
    a_reshaped.map NDArray.shape = some (3, 5) ∧
    a_reshaped.map (fun nd => np_shape nd.data) = some (3, 5) ∧
    a_reshaped.map NDArray.shape =
      a_reshaped.map (fun nd => np_shape nd.data) := by
  decide

/-- Claim C8: the embedded computation of `Introduction_to_Python.ipynb`
is a single deterministic sequence of 26 cell evaluations with the
contents of `myData.csv` as its only input: two evaluations on identical
contents produce identical outputs in every cell. -/
theorem claim_C8 (s t : String) (h : s = t) :
    runIntroNotebook s = runIntroNotebook t ∧
    (runIntroNotebook s).length = 26 := by
  subst h
  exact ⟨rfl, rfl⟩

/-- Claim C8, witness: the two evaluations on the reconstructed contents
of `myData.csv` agree cell by cell. -/
theorem claim_C8_witness :
    runIntroNotebook myData_csv = runIntroNotebook myData_csv ∧
    (runIntroNotebook myData_csv).length = 26 :=
  claim_C8 myData_csv myData_csv rfl

/-- Claim C9: the assignment `text_data.iloc[2,1] = np.nan` succeeds and
changes exactly one entry — row position 2 of column position 1, which is
the `score` column (not `accuracy`, despite the adjacent comment, whose
old value 39 sat in `score`) — leaving every `position` and `accuracy`
entry, every other `score` entry, and all row labels unchanged. -/
theorem claim_C9 :
    set_iloc text_data 2 1 none = some text_data_nan ∧
    text_data_columns.get? 1 = some "score" ∧
    entryDiffCount text_data text_data_nan = 1 ∧
    text_data.rows.get? 2 = some ⟨2, some 3, some 39, some 4⟩ ∧
    text_data_nan.rows.get? 2 = some ⟨2, some 3, none, some 4⟩ ∧
    text_data_nan.rows.map Row.position = text_data.rows.map Row.position ∧
    text_data_nan.rows.map Row.accuracy = text_data.rows.map Row.accuracy ∧
    text_data_nan.rows.map Row.label = text_data.rows.map Row.label ∧
    (text_data_nan.rows.map Row.score).take 2 =
      (text_data.rows.map Row.score).take 2 ∧
    (text_data_nan.rows.map Row.score).drop 3 =
      (text_data.rows.map Row.score).drop 3 := by
  decide

/-- Claim C10: `text_data.dropna(how="any")` returns a new DataFrame
distinct from `text_data` and does not modify it: afterwards `text_data`
still holds all five rows, including the row at position 2 whose score
entry is the NaN. -/
theorem claim_C10 :
    dropna_any text_data_nan ≠ text_data_nan ∧
    (dropna_any text_data_nan).rows.length = 4 ∧
    text_data_nan.rows.length = 5 ∧
    text_data_nan.rows.get? 2 = some ⟨2, some 3, none, some 4⟩ ∧
    text_data_nan.rows.map Row.label = [0, 1, 2, 3, 4] := by
  decide
